import Mathlib

/-!
Verification of the exam-portal / QR-scanner / AI-advisory spec against the
TypeScript source of the Debugging-Dynamos repository.

The embedding translates the two source files:
* `src/unnamed/part_000` — the `ExamPortal` component (exam access controller)
  and the `QRCodeScanner` component (QR scan session);
* `src/geminiService.ts` — the AI advisory façade over the hosted model.

JavaScript numbers are modelled as rationals (`ℚ`); `NaN` is represented as
failure (`Option.none`) of the `toNumber` coercion.  Effectful calls on the
capture device and callbacks to the host are modelled as explicit command
traces; the remote model API is an environment parameter, since its behaviour
is external to the repository.
-/

namespace DebuggingDynamos

/-! ## JavaScript value model -/

/-- A JavaScript runtime value, restricted to the shapes a field of a decoded
QR JSON payload can take.  Numbers are rationals; `NaN` never appears as a
stored field value in this codebase (JSON has no `NaN` literal), so it is not
a constructor here — it only arises from coercion, where `toNumber` returns
`none`. -/
inductive JVal where
  | jstr (s : String)
  | jnum (q : ℚ)
  | jbool (b : Bool)
  | jnull
deriving DecidableEq

/-- JavaScript truthiness of a possibly-absent object property, as used by
`if (!studentId || !timestamp)` in `qrCodeSuccessCallback`.  `none` is an
absent property (`undefined`), which is falsy. -/
def falsy : Option JVal → Bool
  | none => true
  | some (.jstr s) => s == ""
  | some (.jnum q) => decide (q = 0)
  | some (.jbool b) => !b
  | some .jnull => true

/-- JavaScript `ToNumber` coercion, as triggered by `Date.now() - timestamp`.
`none` stands for `NaN`.  String coercion is modelled for the empty string and
optional-sign decimal integer strings; other strings coerce to `NaN`.  (No
behaviour settled below depends on a string-valued timestamp; the case is kept
only so the subtraction in the freshness check is total.) -/
def toNumber : JVal → Option ℚ
  | .jnum q => some q
  | .jbool b => some (if b then 1 else 0)
  | .jnull => some 0
  | .jstr s => if s == "" then some 0 else s.toInt?.map (fun n => (n : ℚ))

/-! ## QR scan session (`QRCodeScanner` in `src/unnamed/part_000`) -/

/-- The outcome of `JSON.parse(atob(decodedText))` followed by the
destructuring `const { studentId, timestamp } = decodedData`.

`undecodable` covers every decoded text for which this step throws: text that
is not valid base64 (`atob` throws), base64 that does not decode to valid JSON
(`JSON.parse` throws), or JSON `null` (destructuring throws).  `object` holds
the two properties the scanner reads; a field is `none` when the parsed value
lacks it (the property reads as `undefined`).  A JSON value that is not an
object (number, string, array, boolean) destructures to absent properties and
is represented as `object none none`. -/
inductive DecodedPayload where
  | undecodable
  | object (studentId : Option JVal) (timestamp : Option JVal)
deriving DecidableEq

/-- What one decode event is classified as by `qrCodeSuccessCallback`. -/
inductive ScanOutcome where
  | formatError
  | expired
  | success (studentId : JVal)
deriving DecidableEq

/-- The validation logic of `qrCodeSuccessCallback` (lines 124-142 of
`src/unnamed/part_000`): throw (caught as a format error) when a field is
falsy, then reject when `(Date.now() - timestamp) / 1000 > 60`, else report
the `studentId` value — of whatever runtime type — to the caller.  A `NaN`
time difference compares false against 60 and is therefore accepted, exactly
as in JavaScript. -/
def classifyScan (now : ℚ) : DecodedPayload → ScanOutcome
  | .undecodable => .formatError
  | .object sid ts =>
      if falsy sid || falsy ts then .formatError
      else
        match toNumber (ts.getD .jnull) with
        | none => .success (sid.getD .jnull)
        | some t =>
            if 60 < (now - t) / 1000 then .expired
            else .success (sid.getD .jnull)

/-- A call the component makes on the capture device (the `Html5Qrcode`
handle) or back to the host. -/
inductive DeviceCmd where
  | acquire (handle : Nat)
  | pause
  | resume
  | stopDevice
  | onScanSuccess (studentId : JVal)
deriving DecidableEq

/-- The component's state: the `scanResult` error banner, the `scannerRef`
handle (`none` before initialisation), and whether the device is paused. -/
structure ScannerState where
  scanResult : Option String
  deviceHandle : Option Nat
  devicePaused : Bool
deriving DecidableEq

/-- `'Invalid or unreadable QR code format.'` -/
def invalidFormatMessage : String := "Invalid or unreadable QR code format."

/-- `'Expired QR Code. Please ask the student to generate a new one.'` -/
def expiredMessage : String :=
  "Expired QR Code. Please ask the student to generate a new one."

/-- One decode event (lines 119-143): ignored when an error banner is already
shown; otherwise the device is paused first, the payload is classified, and
either an error banner is set or the student id is passed to `onScanSuccess`. -/
def qrCodeSuccessCallback (now : ℚ) (d : DecodedPayload) (s : ScannerState) :
    ScannerState × List DeviceCmd :=
  if s.scanResult.isSome then (s, [])
  else
    let s1 : ScannerState := { s with devicePaused := true }
    match classifyScan now d with
    | .formatError => ({ s1 with scanResult := some invalidFormatMessage }, [.pause])
    | .expired => ({ s1 with scanResult := some expiredMessage }, [.pause])
    | .success sid => (s1, [.pause, .onScanSuccess sid])

/-- A session that has acquired its device and is scanning. -/
def scanningState : ScannerState :=
  { scanResult := none, deviceHandle := some 0, devicePaused := false }

/-! ### The component lifecycle

The `useEffect` (lines 112-158) has dependency array `[onScanSuccess,
scanResult]`: every change of `scanResult` re-runs it — first the previous
run's cleanup (lines 152-157), then the body.  The cleanup stops and nulls
the handle whenever `scannerRef.current?.isScanning`; in html5-qrcode
`isScanning` is true for a running **or paused** scanner (`pause()` does not
clear it, only `stop()` does), so the cleanup fires while the error banner is
shown over the paused device.  `ScannerWorld` extends the component state
with the handle's `isScanning` flag so this lifecycle can be stepped
exactly. -/

/-- The component plus the current handle's device flags: the `scanResult`
banner, `scannerRef`, the handle's html5-qrcode `isScanning` (true from a
successful `start()` until `stop()`, unaffected by pause/resume), and whether
it is paused. -/
structure ScannerWorld where
  scanResult : Option String
  scannerRef : Option Nat
  handleScanning : Bool
  handlePaused : Bool
deriving DecidableEq

/-- The world before mount: no banner, no handle. -/
def initialWorld : ScannerWorld :=
  { scanResult := none, scannerRef := none, handleScanning := false,
    handlePaused := false }

/-- The effect cleanup (lines 152-157): when the current handle's
`isScanning` is true — also while paused — stop it and null `scannerRef`. -/
def effectCleanup (w : ScannerWorld) : ScannerWorld × List DeviceCmd :=
  match w.scannerRef with
  | none => (w, [])
  | some _ =>
      if w.handleScanning then
        ({ w with
            scannerRef := none, handleScanning := false, handlePaused := false },
         [.stopDevice])
      else (w, [])

/-- The effect body (lines 112-117 and 145-150): the guard returns when a
handle already exists; otherwise a fresh `Html5Qrcode` is constructed, stored
in `scannerRef`, and `start()` acquires the camera (the success path). -/
def effectBody (handle : Nat) (w : ScannerWorld) : ScannerWorld × List DeviceCmd :=
  match w.scannerRef with
  | some _ => (w, [])
  | none =>
      ({ w with
          scannerRef := some handle, handleScanning := true, handlePaused := false },
       [.acquire handle])

/-- One dependency-triggered re-run of the effect: previous cleanup, then the
body with a fresh candidate handle. -/
def runEffect (handle : Nat) (w : ScannerWorld) : ScannerWorld × List DeviceCmd :=
  let c := effectCleanup w
  let b := effectBody handle c.1
  (b.1, c.2 ++ b.2)

/-- `qrCodeSuccessCallback` stepped on the full world: identical banner and
command logic to `qrCodeSuccessCallback` above; `pause()` sets
`handlePaused` and leaves `handleScanning` true, as in html5-qrcode. -/
def scanEvent (now : ℚ) (d : DecodedPayload) (w : ScannerWorld) :
    ScannerWorld × List DeviceCmd :=
  if w.scanResult.isSome then (w, [])
  else
    let w1 : ScannerWorld := { w with handlePaused := true }
    match classifyScan now d with
    | .formatError => ({ w1 with scanResult := some invalidFormatMessage }, [.pause])
    | .expired => ({ w1 with scanResult := some expiredMessage }, [.pause])
    | .success sid => (w1, [.pause, .onScanSuccess sid])

/-- `handleRetry` (lines 160-163) on the world: clear the banner and call
`resume()` on whatever handle `scannerRef` currently holds. -/
def handleRetry (w : ScannerWorld) : ScannerWorld × List DeviceCmd :=
  match w.scannerRef with
  | none => ({ w with scanResult := none }, [])
  | some _ => ({ w with scanResult := none, handlePaused := false }, [.resume])

/-- The session after mount: the effect's first run on the fresh world. -/
def afterMount : ScannerWorld := (runEffect 0 initialWorld).1

/-- After one undecodable scan: the error banner over the paused device. -/
def afterErrorScan : ScannerWorld :=
  (scanEvent 0 DecodedPayload.undecodable afterMount).1

/-- After the re-render the `scanResult` change triggers: the cleanup has
stopped the paused-but-`isScanning` handle 0 and the body acquired handle 1. -/
def afterErrorRerender : ScannerWorld := (runEffect 1 afterErrorScan).1

/-- After the user clicks retry. -/
def afterRetry : ScannerWorld := (handleRetry afterErrorRerender).1

/-- After the re-render the retry's `scanResult` change triggers. -/
def afterRetryRerender : ScannerWorld := (runEffect 2 afterRetry).1

/-- Every device command the error-then-retry session issues, in order. -/
def retryTraceCmds : List DeviceCmd :=
  (runEffect 0 initialWorld).2 ++
  (scanEvent 0 DecodedPayload.undecodable afterMount).2 ++
  (runEffect 1 afterErrorScan).2 ++
  (handleRetry afterErrorRerender).2 ++
  (runEffect 2 afterRetry).2

/-- The bad-payload shapes of claim C4: text whose decoding throws, or a
decoded object lacking the `studentId` or the `timestamp` property. -/
def missingFields : DecodedPayload → Prop
  | .undecodable => True
  | .object sid ts => sid = none ∨ ts = none

/-! ## Exam access controller (`ExamPortal` in `src/unnamed/part_000`) -/

/-- `status: 'Completed' | 'Blocked'` of `ExamSubmission`. -/
inductive SubmissionStatus where
  | completed
  | blocked
deriving DecidableEq

/-- The `Exam` record, to the fields `ExamPortal` reads. -/
structure Exam where
  id : String
  title : String
  subject : String
  questions : List String
  durationMinutes : Nat
deriving DecidableEq

/-- The persisted `ExamSubmission` record. -/
structure ExamSubmission where
  id : String
  examId : String
  studentId : String
  studentName : String
  answers : List (String × String)
  submittedAt : ℤ
  status : SubmissionStatus
  score : ℤ
deriving DecidableEq

/-- `new Map(submissions.map(s => [s.examId, s])).get(examId)` (line 17).
The JavaScript `Map` constructor keeps the last entry for a duplicate key,
hence the find over the reversed list. -/
def studentSubmissionsMap (submissions : List ExamSubmission) (examId : String) :
    Option ExamSubmission :=
  submissions.reverse.find? (fun s => s.examId == examId)

/-- What one exam card in the catalog grid renders (lines 52-84): the
take-exam button when no submission matches, otherwise a status card with the
`'Blocked'` or `'Completed'` label and the submission's score. -/
inductive ExamCardView where
  | takeButton
  | statusCard (label : String) (score : ℤ)
deriving DecidableEq

/-- The per-exam rendering decision (lines 53-79). -/
def renderExamCard (submissions : List ExamSubmission) (exam : Exam) : ExamCardView :=
  match studentSubmissionsMap submissions exam.id with
  | none => .takeButton
  | some s =>
      if s.status = .blocked then .statusCard "Blocked" s.score
      else .statusCard "Completed" s.score

/-- What the whole portal renders. -/
inductive PortalView where
  | blockedScreen
  | examTaker (exam : Exam)
  | catalog (cards : List ExamCardView)
deriving DecidableEq

/-- The start action: the take-exam button's `setTakingExam(exam)` (line 74). -/
def startExam (exam : Exam) : Option Exam := some exam

/-- The component's top-level render (lines 31-92): with a selected exam,
show the blocked screen when the student's submission for it has status
`'Blocked'`, else enter `ExamTaker`; with none selected, render the catalog
grid of per-exam cards. -/
def renderPortal (takingExam : Option Exam) (submissions : List ExamSubmission)
    (exams : List Exam) : PortalView :=
  match takingExam with
  | some e =>
      match studentSubmissionsMap submissions e.id with
      | some s => if s.status = .blocked then .blockedScreen else .examTaker e
      | none => .examTaker e
  | none => .catalog (exams.map (renderExamCard submissions))

/-- The submission record handed to `onSubmitExam`:
`Omit<ExamSubmission, 'id' | 'score' | 'studentName'>`. -/
structure SubmissionRecord where
  examId : String
  studentId : String
  answers : List (String × String)
  submittedAt : ℤ
  status : SubmissionStatus
deriving DecidableEq

/-- `handleSubmit` (lines 19-29): the emitted records and the new
`takingExam` state.  With no exam selected it returns early; otherwise it
emits one record built from the selected exam, the student, the answers,
`Date.now()` and the given status, and clears the selection. -/
def handleSubmit (takingExam : Option Exam) (studentId : String)
    (answers : List (String × String)) (now : ℤ) (status : SubmissionStatus) :
    List SubmissionRecord × Option Exam :=
  match takingExam with
  | none => ([], none)
  | some e =>
      ([{ examId := e.id, studentId := studentId, answers := answers,
          submittedAt := now, status := status }], none)

/-- A sample exam for witnesses. -/
def examA : Exam :=
  { id := "e1", title := "Algebra", subject := "Math", questions := ["q1"],
    durationMinutes := 30 }

/-- A blocked submission for `examA`. -/
def blockedSubmission : ExamSubmission :=
  { id := "s1", examId := "e1", studentId := "stu1", studentName := "Asha",
    answers := [], submittedAt := 0, status := .blocked, score := 0 }

/-- A completed submission for `examA`. -/
def completedSubmission : ExamSubmission :=
  { id := "s2", examId := "e1", studentId := "stu1", studentName := "Asha",
    answers := [("q1", "42")], submittedAt := 5, status := .completed, score := 87 }

/-! ## AI advisory service (`src/geminiService.ts`)

Each operation wraps its whole body in `try { ... } catch { ... }`.  Inside
the `try`, the only steps that can throw are the awaited remote call, the
`.trim()` on a possibly-undefined `response.text`, and `JSON.parse`; the
prompt construction is pure string building whose result flows only into the
remote request, so it is folded into the environment that supplies the remote
outcome.  Thrown errors are modelled with `Except`. -/

/-- A thrown JavaScript error. -/
structure JsError where
  message : String
deriving DecidableEq

/-- The environment of one `ai.models.generateContent` operation:
`generateContent` is the awaited call's `.text` field, `.error` when the
network/API call throws, `.ok none` when the call returns but `text` is
undefined; `jsonParse` is `JSON.parse` on the trimmed text, read at the
operation's result type, `.error` on malformed JSON. -/
structure GenEnv (α : Type) where
  generateContent : Except JsError (Option String)
  jsonParse : String → Except JsError α

/-- `response.text.trim()`: throws a `TypeError` when `text` is undefined. -/
def textTrim : Option String → Except JsError String
  | none => .error { message := "TypeError: response.text is undefined" }
  | some t => .ok t.trim

/-- `try { body } catch (error) { console.error(...); return null; }`, the
skeleton shared by every operation typed `Promise<T | null>`. -/
def tryCatchNull {α : Type} (body : Except JsError (Option α)) :
    Except JsError (Option α) :=
  match body with
  | .ok v => .ok v
  | .error _ => .ok none

/-- The shared body of the six structured-output operations: remote call,
`.text.trim()`, `JSON.parse`, all inside the null-returning catch. -/
def generateParsed {α : Type} (env : GenEnv α) : Except JsError (Option α) :=
  tryCatchNull (do
    let text ← env.generateContent
    let trimmed ← textTrim text
    let parsed ← env.jsonParse trimmed
    pure (some parsed))

/-- One day of `daily_plan` in a `LearningPath`. -/
structure DailyPlanItem where
  day : String
  focus_topic : String
  learning_activity : String
  practice_task : String
  estimated_time : String
deriving DecidableEq

/-- The `LearningPath` response shape. -/
structure LearningPath where
  overall_summary : String
  daily_plan : List DailyPlanItem
deriving DecidableEq

/-- The `PerformancePrediction` response shape. -/
structure PerformancePrediction where
  predicted_performance : String
  confidence_score : String
  rationale : String
deriving DecidableEq

/-- The `ProgressInsight` response shape. -/
structure ProgressInsight where
  strengths : List String
  areas_for_improvement : List String
  actionable_advice : String
deriving DecidableEq

/-- One element of the `ActivitySuggestion[]` response. -/
structure ActivitySuggestion where
  title : String
  description : String
  category : String
  rationale : String
deriving DecidableEq

/-- The face-match response shape. -/
structure FaceMatchResult where
  isMatch : Bool
  confidence : ℚ
  reason : String
deriving DecidableEq

/-- `generatePersonalizedLearningPath` (lines 66-169): attendance analytics
feed only the prompt, so the observable behaviour is the shared skeleton at
type `LearningPath`. -/
def generatePersonalizedLearningPath (env : GenEnv LearningPath) :
    Except JsError (Option LearningPath) :=
  generateParsed env

/-- `generateStudentInitiatedLearningPath` (lines 171-245). -/
def generateStudentInitiatedLearningPath (env : GenEnv LearningPath) :
    Except JsError (Option LearningPath) :=
  generateParsed env

/-- `predictStudentPerformance` (lines 247-339). -/
def predictStudentPerformance (env : GenEnv PerformancePrediction) :
    Except JsError (Option PerformancePrediction) :=
  generateParsed env

/-- `generateProgressInsights` (lines 341-400). -/
def generateProgressInsights (env : GenEnv ProgressInsight) :
    Except JsError (Option ProgressInsight) :=
  generateParsed env

/-- `generateActivitySuggestions` (lines 402-486). -/
def generateActivitySuggestions (env : GenEnv (List ActivitySuggestion)) :
    Except JsError (Option (List ActivitySuggestion)) :=
  generateParsed env

/-- `verifyFaceMatch` (lines 488-544). -/
def verifyFaceMatch (env : GenEnv FaceMatchResult) :
    Except JsError (Option FaceMatchResult) :=
  generateParsed env

/-! ### The chatbot operation and its history cache -/

/-- The environment of one `chat.sendMessage` call: the awaited reply text,
or a thrown network/API error. -/
structure ChatEnv where
  sendMessage : Except JsError String

/-- The module-level `chatHistories` map and a counter identifying chat
sessions by creation order. -/
structure ChatState where
  histories : List (String × Nat)
  nextId : Nat
deriving DecidableEq

/-- The state before any chat call: an empty `chatHistories` map. -/
def ChatState.initial : ChatState := { histories := [], nextId := 0 }

/-- Line 20: `const historyKey = ` followed by the template
`chat-session-`, the language tag, `-`, and `context.substring(0, 20)`. -/
def historyKey (lang context : String) : String :=
  "chat-session-" ++ lang ++ "-" ++ context.take 20

/-- Lines 22-49: `chatHistories.get(historyKey)`, and on a miss
`ai.chats.create(...)` followed by `chatHistories.set(historyKey, chat)`.
Returns the session used and the updated map. -/
def getOrCreateChat (key : String) (st : ChatState) : Nat × ChatState :=
  match st.histories.lookup key with
  | some sid => (sid, st)
  | none =>
      (st.nextId,
       { histories := (key, st.nextId) :: st.histories, nextId := st.nextId + 1 })

/-- The catch-branch reply of `getChatbotResponse` (line 62). -/
def connectionTroubleMessage : String :=
  "Sorry, I'm having trouble connecting to my brain right now. Please try again later."

/-- The empty-response reply of `getChatbotResponse` (line 56). -/
def emptyResponseMessage : String :=
  "I'm sorry, I couldn't generate a response. Please try again."

/-- `getChatbotResponse` (lines 10-64): reply text, the chat session used,
and the updated history map.  The operation is typed `Promise<string>`: on a
thrown error the catch returns a hardcoded fallback string, and an empty
reply is replaced by another hardcoded string. -/
def getChatbotResponse (lang context : String) (env : ChatEnv) (st : ChatState) :
    String × Nat × ChatState :=
  let chatAndState := getOrCreateChat (historyKey lang context) st
  (match env.sendMessage with
   | .error _ => connectionTroubleMessage
   | .ok text => if text = "" then emptyResponseMessage else text,
   chatAndState.1, chatAndState.2)

/-- An environment whose remote call throws. -/
def failingChatEnv : ChatEnv := { sendMessage := .error { message := "network error" } }

/-- An environment whose remote call replies normally. -/
def okChatEnv : ChatEnv := { sendMessage := .ok "Namaste! How can I help?" }

/-- A structured-output environment whose remote call throws. -/
def failingGenEnv (α : Type) : GenEnv α :=
  { generateContent := .error { message := "network error" },
    jsonParse := fun _ => .error { message := "SyntaxError" } }

/-- Two contexts that differ but share their first 20 characters. -/
def ctxA : String := "abcdefghijklmnopqrst first topic"

/-- See `ctxA`. -/
def ctxB : String := "abcdefghijklmnopqrst second topic"

/-- Two consecutive chatbot calls starting from the empty history map: the
first call's result, and the second call's result run on the state the first
call left behind. -/
def chatTwice (lang1 c1 lang2 c2 : String) (env1 env2 : ChatEnv) :
    (String × Nat × ChatState) × (String × Nat × ChatState) :=
  let r1 := getChatbotResponse lang1 c1 env1 ChatState.initial
  (r1, getChatbotResponse lang2 c2 env2 r1.2.2)

/-! ## Theorems -/

/-- C1: for every exam catalog and submission set, when the current student's
submission map holds a `Blocked` entry for an exam, starting that exam
(selecting it as `takingExam`) renders the blocked screen, never the
exam-taking flow. -/
theorem C1_blocked_exam_never_enters_taking
    (exams : List Exam) (submissions : List ExamSubmission) (exam : Exam)
    (s : ExamSubmission)
    (hs : studentSubmissionsMap submissions exam.id = some s)
    (hb : s.status = .blocked) :
    renderPortal (startExam exam) submissions exams = .blockedScreen := by
  simp [renderPortal, startExam, hs, hb]

/-- Witness for C1: the blocked submission for exam `e1` forces the blocked
screen when `e1` is started. -/
theorem C1_witness :
    renderPortal (startExam examA) [blockedSubmission] [examA] = .blockedScreen :=
  C1_blocked_exam_never_enters_taking [examA] [blockedSubmission] examA
    blockedSubmission rfl rfl

/-- C2: the rendering decision is a pure function of the catalog entry and
the submission set: no matching submission renders the take button, a
completed one renders the `Completed` card with its score, a blocked one the
`Blocked` card; and the card is determined by the matching submission alone. -/
theorem C2_render_variant (submissions : List ExamSubmission) (exam : Exam) :
    (studentSubmissionsMap submissions exam.id = none →
      renderExamCard submissions exam = .takeButton) ∧
    (∀ s, studentSubmissionsMap submissions exam.id = some s →
      s.status = .completed →
      renderExamCard submissions exam = .statusCard "Completed" s.score) ∧
    (∀ s, studentSubmissionsMap submissions exam.id = some s →
      s.status = .blocked →
      renderExamCard submissions exam = .statusCard "Blocked" s.score) ∧
    (∀ submissions2,
      studentSubmissionsMap submissions exam.id =
        studentSubmissionsMap submissions2 exam.id →
      renderExamCard submissions exam = renderExamCard submissions2 exam) := by
  refine ⟨fun h => by simp [renderExamCard, h], fun s hs hc => ?_, fun s hs hb => ?_,
    fun submissions2 h => ?_⟩
  · simp [renderExamCard, hs, hc]
  · simp [renderExamCard, hs, hb]
  · unfold renderExamCard
    rw [h]

/-- Witness for C2: the three variants at concrete submission sets. -/
theorem C2_witness :
    renderExamCard [] examA = .takeButton ∧
    renderExamCard [completedSubmission] examA = .statusCard "Completed" 87 ∧
    renderExamCard [blockedSubmission] examA = .statusCard "Blocked" 0 :=
  ⟨(C2_render_variant [] examA).1 rfl,
   (C2_render_variant [completedSubmission] examA).2.1 completedSubmission rfl rfl,
   (C2_render_variant [blockedSubmission] examA).2.2.1 blockedSubmission rfl rfl⟩

/-- C6: the code at the failing trace.  Because html5-qrcode keeps
`isScanning` true while paused, every `scanResult` change re-runs the effect,
whose cleanup stops and nulls the handle and whose body acquires a fresh
scanner: after mount (handle 0), one error-producing scan, the error
re-render, retry, and the retry re-render, the session holds handle 2 — not
the handle acquired at session start — the trace contains two acquisitions
beyond the first, and `handleRetry`'s `resume()` went to handle 1, which was
freshly started and not paused.  This contradicts the claim, the spec, and
the code's own line-113 comment that the guard prevents re-initialisation on
re-renders. -/
theorem C6_retry_reacquires_device :
    afterMount.scannerRef = some 0 ∧
    afterErrorRerender.scannerRef = some 1 ∧
    afterErrorRerender.handlePaused = false ∧
    afterRetryRerender.scannerRef = some 2 ∧
    afterRetryRerender.scannerRef ≠ some 0 ∧
    retryTraceCmds = [DeviceCmd.acquire 0, DeviceCmd.pause, DeviceCmd.stopDevice,
      DeviceCmd.acquire 1, DeviceCmd.resume, DeviceCmd.stopDevice,
      DeviceCmd.acquire 2] :=
  ⟨rfl, rfl, rfl, rfl, by decide, rfl⟩

/-- C7: `handleSubmit` with a selected exam emits exactly one record carrying
the exam id, student id, answers, current timestamp and status, and clears the
selection; with no selected exam it emits nothing and leaves the selection
cleared as it was. -/
theorem C7_handleSubmit_emits_once_then_clears (studentId : String)
    (answers : List (String × String)) (now : ℤ) (status : SubmissionStatus) :
    (∀ e : Exam, handleSubmit (some e) studentId answers now status =
      ([{ examId := e.id, studentId := studentId, answers := answers,
          submittedAt := now, status := status }], none)) ∧
    handleSubmit none studentId answers now status = ([], none) :=
  ⟨fun _ => rfl, rfl⟩

/-- C10: a payload whose `studentId` is the empty string, and a payload whose
`timestamp` is the number 0, are both classified as the format error — not as
expired and not as a success — although both fields are present. -/
theorem C10_empty_id_or_zero_timestamp_is_format_error (now : ℚ) (sid ts : JVal) :
    classifyScan now (.object (some (.jstr "")) (some ts)) = .formatError ∧
    classifyScan now (.object (some sid) (some (.jnum 0))) = .formatError := by
  constructor
  · simp [classifyScan, falsy]
  · simp [classifyScan, falsy]

/-- C3 fails as stated: at `now = 100000` the payload with a valid student id
and the integer timestamp 0 has age `100000 > 60000` milliseconds, yet it is
not rejected as expired — the falsiness check classifies it as a format
error first. -/
theorem C3_counterexample :
    (60000 : ℚ) < 100000 - 0 ∧
    classifyScan 100000 (.object (some (.jstr "s1")) (some (.jnum 0))) =
      .formatError ∧
    ScanOutcome.formatError ≠ ScanOutcome.expired := by
  refine ⟨by norm_num, ?_, by simp⟩
  simp [classifyScan, falsy]

/-- C3 amended: for a payload whose student id is a nonempty string and whose
timestamp is a nonzero integer, the scan succeeds with that student id exactly
when the age `now - t` is at most 60000 ms, and is rejected as expired exactly
when the age exceeds 60000 ms (in particular 60000 is accepted, 60001
rejected). -/
theorem C3_freshness_boundary (now t : ℤ) (sid : String)
    (hsid : sid ≠ "") (ht : t ≠ 0) :
    (classifyScan (now : ℚ) (.object (some (.jstr sid)) (some (.jnum (t : ℚ)))) =
        .success (.jstr sid) ↔ now - t ≤ 60000) ∧
    (classifyScan (now : ℚ) (.object (some (.jstr sid)) (some (.jnum (t : ℚ)))) =
        .expired ↔ 60000 < now - t) := by
  have hsid' : (sid == "") = false := by
    simp [hsid]
  have ht' : ((t : ℚ) = 0) = False := by
    simp [ht]
  have hcond : (60 < ((now : ℚ) - (t : ℚ)) / 1000) ↔ (60000 < now - t) := by
    rw [lt_div_iff₀ (by norm_num : (0 : ℚ) < 1000)]
    constructor
    · intro h
      have h2 : (60000 : ℚ) < (now : ℚ) - (t : ℚ) := by linarith
      exact_mod_cast h2
    · intro h
      have h2 : (60000 : ℚ) < (now : ℚ) - (t : ℚ) := by exact_mod_cast h
      linarith
  by_cases hage : 60000 < now - t
  · have : classifyScan (now : ℚ)
        (.object (some (.jstr sid)) (some (.jnum (t : ℚ)))) = .expired := by
      simp [classifyScan, falsy, toNumber, hsid', ht', if_pos (hcond.mpr hage)]
    rw [this]
    constructor
    · simp [hage, not_le.mpr hage]
    · simp [hage]
  · have : classifyScan (now : ℚ)
        (.object (some (.jstr sid)) (some (.jnum (t : ℚ)))) =
        .success (.jstr sid) := by
      simp [classifyScan, falsy, toNumber, hsid', ht', if_neg (fun hc => hage (hcond.mp hc))]
    rw [this]
    constructor
    · simp [not_lt.mp hage]
    · simp [hage]

/-- Witness for the amended C3: an age of exactly 60000 ms is accepted, and
an age of 60001 ms is rejected as expired. -/
theorem C3_witness :
    classifyScan ((61000 : ℤ) : ℚ)
      (.object (some (.jstr "s1")) (some (.jnum ((1000 : ℤ) : ℚ)))) =
      .success (.jstr "s1") ∧
    classifyScan ((61001 : ℤ) : ℚ)
      (.object (some (.jstr "s1")) (some (.jnum ((1000 : ℤ) : ℚ)))) =
      .expired :=
  ⟨(C3_freshness_boundary 61000 1000 "s1" (by decide) (by decide)).1.mpr (by decide),
   (C3_freshness_boundary 61001 1000 "s1" (by decide) (by decide)).2.mpr (by decide)⟩

/-- C4: every decoded text whose decoding throws (bad base64 or bad JSON) and
every decoded object missing the `studentId` or `timestamp` field is
classified as the format error; in the scanning state the session transitions
to the format-error banner, and for no such input is a student id passed to
the caller. -/
theorem C4_malformed_payload_always_format_error
    (now : ℚ) (d : DecodedPayload) (s : ScannerState) (hd : missingFields d) :
    classifyScan now d = .formatError ∧
    (s.scanResult = none →
      (qrCodeSuccessCallback now d s).1.scanResult = some invalidFormatMessage) ∧
    (∀ sid, DeviceCmd.onScanSuccess sid ∉ (qrCodeSuccessCallback now d s).2) := by
  have hclass : classifyScan now d = .formatError := by
    cases d with
    | undecodable => rfl
    | object sid ts =>
        rcases hd with h | h
        · subst h
          simp [classifyScan, falsy]
        · subst h
          simp [classifyScan, falsy]
  refine ⟨hclass, fun h0 => ?_, fun sid => ?_⟩
  · simp [qrCodeSuccessCallback, h0, hclass]
  · by_cases h0 : s.scanResult.isSome
    · simp [qrCodeSuccessCallback, h0]
    · simp [qrCodeSuccessCallback, h0, hclass]

/-- Witness for C4: an undecodable scan in the scanning state sets the
format-error banner and passes nothing to the caller. -/
theorem C4_witness :
    (qrCodeSuccessCallback 0 .undecodable scanningState).1.scanResult =
      some invalidFormatMessage ∧
    DeviceCmd.onScanSuccess .jnull ∉
      (qrCodeSuccessCallback 0 .undecodable scanningState).2 :=
  ⟨(C4_malformed_payload_always_format_error 0 .undecodable scanningState
      trivial).2.1 rfl,
   (C4_malformed_payload_always_format_error 0 .undecodable scanningState
      trivial).2.2 .jnull⟩

/-- C5 fails as stated: a payload whose `studentId` is the number 123 — not a
string — passes validation and is reported as a success to the caller, the
numeric id included in the `onScanSuccess` call. -/
theorem C5_counterexample :
    classifyScan 100000 (.object (some (.jnum 123)) (some (.jnum 100000))) =
      .success (.jnum 123) ∧
    (qrCodeSuccessCallback 100000
        (.object (some (.jnum 123)) (some (.jnum 100000))) scanningState).2 =
      [DeviceCmd.pause, DeviceCmd.onScanSuccess (.jnum 123)] := by
  have h : classifyScan 100000
      (.object (some (.jnum 123)) (some (.jnum 100000))) =
      .success (.jnum 123) := by
    simp [classifyScan, falsy, toNumber]
  exact ⟨h, by simp [qrCodeSuccessCallback, scanningState, h]⟩

/-- C5 amended: the payload validation checks only JavaScript truthiness of
the two fields, never their types — a decoded object is rejected as a format
error exactly when `studentId` or `timestamp` is falsy (absent, empty string,
zero, `false`, or `null`); any truthy pair of values, of whatever type,
passes validation. -/
theorem C5_truthiness_only_validation (now : ℚ) (osid ots : Option JVal) :
    classifyScan now (.object osid ots) = .formatError ↔
      (falsy osid = true ∨ falsy ots = true) := by
  cases hs : falsy osid with
  | true => simp [classifyScan, hs]
  | false =>
      cases hts : falsy ots with
      | true => simp [classifyScan, hs, hts]
      | false =>
          simp only [classifyScan, hs, hts, Bool.or_self, Bool.false_eq_true,
            if_false, or_self, iff_false]
          cases htn : toNumber (ots.getD .jnull) with
          | none => simp [htn]
          | some t =>
              by_cases hc : 60 < (now - t) / 1000
              · simp [htn, hc]
              · simp [htn, hc]

/-- Shared: the null-returning catch makes every structured operation body
resolve to an `ok` value. -/
theorem tryCatchNull_never_throws {α : Type} (body : Except JsError (Option α)) :
    ∃ r, tryCatchNull body = .ok r := by
  cases body with
  | ok v => exact ⟨v, rfl⟩
  | error e => exact ⟨none, rfl⟩

/-- Shared: a structured operation never throws. -/
theorem generateParsed_never_throws {α : Type} (env : GenEnv α) :
    ∃ r, generateParsed env = .ok r :=
  tryCatchNull_never_throws _

/-- Shared: when the remote call throws, a structured operation resolves to
the null sentinel. -/
theorem generateParsed_remote_error {α : Type} (env : GenEnv α) (e : JsError)
    (h : env.generateContent = .error e) : generateParsed env = .ok none := by
  unfold generateParsed
  rw [h]
  rfl

/-- Shared: when the reply text fails to parse as JSON, a structured
operation resolves to the null sentinel. -/
theorem generateParsed_parse_error {α : Type} (env : GenEnv α) (t : String)
    (e : JsError) (hg : env.generateContent = .ok (some t))
    (hp : env.jsonParse t.trim = .error e) : generateParsed env = .ok none := by
  have h2 : generateParsed env =
      tryCatchNull ((env.jsonParse t.trim).bind fun parsed => pure (some parsed)) := by
    unfold generateParsed
    rw [hg]
    rfl
  rw [h2, hp]
  rfl

/-- C8 fails as stated: on a thrown remote error `getChatbotResponse` does
not report failure as a null sentinel — it returns a hardcoded, nonempty
fallback reply string. -/
theorem C8_counterexample :
    (getChatbotResponse "en-IN" "exam help" failingChatEnv ChatState.initial).1 =
      connectionTroubleMessage ∧ connectionTroubleMessage ≠ "" :=
  ⟨rfl, by decide⟩

/-- C8 amended: no advisory operation ever throws to its caller.  The six
structured-output operations resolve to a parsed typed result or to the null
sentinel, and resolve to null whenever the remote call throws;
`getChatbotResponse`, typed as a plain string promise, instead replaces a
thrown remote error by a hardcoded fallback message. -/
theorem C8_operations_never_throw
    (envL envS : GenEnv LearningPath) (envP : GenEnv PerformancePrediction)
    (envI : GenEnv ProgressInsight) (envA : GenEnv (List ActivitySuggestion))
    (envF : GenEnv FaceMatchResult) (envC : ChatEnv)
    (lang context : String) (st : ChatState) :
    (∃ r, generatePersonalizedLearningPath envL = .ok r) ∧
    (∃ r, generateStudentInitiatedLearningPath envS = .ok r) ∧
    (∃ r, predictStudentPerformance envP = .ok r) ∧
    (∃ r, generateProgressInsights envI = .ok r) ∧
    (∃ r, generateActivitySuggestions envA = .ok r) ∧
    (∃ r, verifyFaceMatch envF = .ok r) ∧
    (∀ e, envL.generateContent = .error e →
      generatePersonalizedLearningPath envL = .ok none) ∧
    (∀ e, envS.generateContent = .error e →
      generateStudentInitiatedLearningPath envS = .ok none) ∧
    (∀ e, envP.generateContent = .error e →
      predictStudentPerformance envP = .ok none) ∧
    (∀ e, envI.generateContent = .error e →
      generateProgressInsights envI = .ok none) ∧
    (∀ e, envA.generateContent = .error e →
      generateActivitySuggestions envA = .ok none) ∧
    (∀ e, envF.generateContent = .error e →
      verifyFaceMatch envF = .ok none) ∧
    (∀ e, envC.sendMessage = .error e →
      (getChatbotResponse lang context envC st).1 = connectionTroubleMessage) := by
  refine ⟨generateParsed_never_throws envL, generateParsed_never_throws envS,
    generateParsed_never_throws envP, generateParsed_never_throws envI,
    generateParsed_never_throws envA, generateParsed_never_throws envF,
    fun e h => generateParsed_remote_error envL e h,
    fun e h => generateParsed_remote_error envS e h,
    fun e h => generateParsed_remote_error envP e h,
    fun e h => generateParsed_remote_error envI e h,
    fun e h => generateParsed_remote_error envA e h,
    fun e h => generateParsed_remote_error envF e h,
    fun e h => ?_⟩
  simp [getChatbotResponse, h]

/-- Witness for the amended C8: with a throwing remote, the learning-path
operation resolves to null and the chatbot returns its fallback message. -/
theorem C8_witness :
    generatePersonalizedLearningPath (failingGenEnv LearningPath) = .ok none ∧
    (getChatbotResponse "en-IN" "exam help" failingChatEnv ChatState.initial).1 =
      connectionTroubleMessage := by
  obtain ⟨-, -, -, -, -, -, hB1, -, -, -, -, -, hC⟩ :=
    C8_operations_never_throw (failingGenEnv LearningPath)
      (failingGenEnv LearningPath) (failingGenEnv PerformancePrediction)
      (failingGenEnv ProgressInsight) (failingGenEnv (List ActivitySuggestion))
      (failingGenEnv FaceMatchResult) failingChatEnv "en-IN" "exam help"
      ChatState.initial
  exact ⟨hB1 { message := "network error" } rfl,
    hC { message := "network error" } rfl⟩

set_option maxRecDepth 8192

/-- C9 fails as stated: `ctxA` and `ctxB` are different contexts, yet the
second call — same language, context `ctxB` — reuses the session created for
`ctxA` (same session, no new session added), because only the first 20
characters of the context enter the cache key. -/
theorem C9_counterexample :
    ctxA ≠ ctxB ∧
    (chatTwice "en-IN" ctxA "en-IN" ctxB okChatEnv okChatEnv).2.2.1 =
      (chatTwice "en-IN" ctxA "en-IN" ctxB okChatEnv okChatEnv).1.2.1 ∧
    (chatTwice "en-IN" ctxA "en-IN" ctxB okChatEnv okChatEnv).2.2.2.nextId =
      (chatTwice "en-IN" ctxA "en-IN" ctxB okChatEnv okChatEnv).1.2.2.nextId :=
  ⟨by decide, rfl, rfl⟩

/-- C9 amended: conversation continuation is keyed by the composite of the
language and the first 20 characters of the context: a second call reuses the
first call's session exactly when the two composite keys coincide; in
particular, same language and same 20-character context prefix always
continue the same session. -/
theorem C9_session_keyed_by_lang_and_context_head
    (lang1 c1 lang2 c2 : String) (env1 env2 : ChatEnv) :
    ((chatTwice lang1 c1 lang2 c2 env1 env2).2.2.1 =
        (chatTwice lang1 c1 lang2 c2 env1 env2).1.2.1 ↔
      historyKey lang2 c2 = historyKey lang1 c1) ∧
    (lang2 = lang1 → c2.take 20 = c1.take 20 →
      (chatTwice lang1 c1 lang2 c2 env1 env2).2.2.1 =
        (chatTwice lang1 c1 lang2 c2 env1 env2).1.2.1) := by
  have hmain : (chatTwice lang1 c1 lang2 c2 env1 env2).2.2.1 =
      (chatTwice lang1 c1 lang2 c2 env1 env2).1.2.1 ↔
      historyKey lang2 c2 = historyKey lang1 c1 := by
    by_cases hk : historyKey lang2 c2 = historyKey lang1 c1
    · simp only [hk, iff_true]
      simp [chatTwice, getChatbotResponse, getOrCreateChat, ChatState.initial,
        List.lookup, hk]
    · have hbeq : (historyKey lang2 c2 == historyKey lang1 c1) = false :=
        beq_eq_false_iff_ne.mpr hk
      simp only [hk, iff_false]
      simp [chatTwice, getChatbotResponse, getOrCreateChat, ChatState.initial,
        List.lookup, hbeq]
  refine ⟨hmain, fun hl hc => hmain.mpr ?_⟩
  unfold historyKey
  rw [hl, hc]

/-- Witness for the amended C9: a repeat call with the same language and the
same context continues the same session. -/
theorem C9_witness :
    (chatTwice "en-IN" ctxA "en-IN" ctxA okChatEnv okChatEnv).2.2.1 =
      (chatTwice "en-IN" ctxA "en-IN" ctxA okChatEnv okChatEnv).1.2.1 :=
  (C9_session_keyed_by_lang_and_context_head "en-IN" ctxA "en-IN" ctxA
    okChatEnv okChatEnv).2 rfl rfl

end DebuggingDynamos
